import Mathlib

/-!
Shallow embedding of the core of the restaurant-wall single-page application
(src/src/App.tsx and the type declarations in src/unnamed/part_000), together
with theorems settling the specification claims about it.

Modelling conventions:
* JavaScript strings are Lean `String`; `toLowerCase` is modelled by mapping
  `Char.toLower` over the scalar values, `includes` by list infixity.
* Network calls are modelled by their outcomes (`FetchResult`, `PostResult`),
  passed as parameters to the state-transition functions.
* The React state slots touched by the core, plus the localStorage slot under
  the fixed key "restaurants", form `AppState`; the effect at App.tsx:120-122
  that mirrors the collection into localStorage fires whenever the collection
  is set, so it is folded into `setRestaurantsPersist`.
* `Array.prototype.sort` is stable (ES2019); it is modelled by `List.mergeSort`
  keeping `a` before `b` whenever the comparator returns a value `≤ 0`.
-/

/-- Location value of a restaurant (src/unnamed/part_000, field `location`).
The core never reads the coordinates, so their numeric type is immaterial;
they are carried as integers. -/
structure Location where
  lat : Int
  lng : Int
  address : String
deriving DecidableEq, Repr

/-- The `Restaurant` interface of src/unnamed/part_000. The TypeScript type
restricts `priceRange` to the four euro symbols and `rating` to 1..5, but no
runtime validation exists anywhere in the code, so both are carried at their
runtime representations (string, number). -/
structure Restaurant where
  id : String
  name : String
  cuisine : String
  description : String
  priceRange : String
  rating : Nat
  recommendedBy : String
  timestamp : Int
  location : Location
deriving DecidableEq, Repr

/-- JavaScript `String.prototype.toLowerCase`, modelled on scalar values. -/
def jsToLower (s : String) : String :=
  String.mk (s.toList.map Char.toLower)

/-- JavaScript `String.prototype.includes sub`: `sub` occurs contiguously in
the receiver. -/
def jsIncludes (s sub : String) : Bool :=
  decide (sub.toList <:+: s.toList)

/-- App.tsx:95-96, the `matchesSearch` conjunct of the filter predicate. -/
def matchesSearch (searchTerm : String) (r : Restaurant) : Bool :=
  jsIncludes (jsToLower r.name) (jsToLower searchTerm) ||
    jsIncludes (jsToLower r.description) (jsToLower searchTerm)

/-- App.tsx:97, the `matchesCuisine` conjunct. -/
def matchesCuisine (selectedCuisine : String) (r : Restaurant) : Bool :=
  selectedCuisine == "All" || r.cuisine == selectedCuisine

/-- App.tsx:98, the `matchesPrice` conjunct. -/
def matchesPrice (priceFilter : String) (r : Restaurant) : Bool :=
  priceFilter == "all" || r.priceRange == priceFilter

/-- App.tsx:94-99, the whole filter callback. -/
def restaurantFilter (searchTerm selectedCuisine priceFilter : String)
    (r : Restaurant) : Bool :=
  matchesSearch searchTerm r && matchesCuisine selectedCuisine r &&
    matchesPrice priceFilter r

/-- App.tsx:101-116, the sort comparator: a `switch` on the sort key, default
branch returns 0 (no reordering). -/
def sortComparator (sortBy : String) (a b : Restaurant) : Int :=
  if sortBy == "newest" then b.timestamp - a.timestamp
  else if sortBy == "oldest" then a.timestamp - b.timestamp
  else if sortBy == "rating" then (b.rating : Int) - (a.rating : Int)
  else if sortBy == "price-asc" then
    (a.priceRange.length : Int) - (b.priceRange.length : Int)
  else if sortBy == "price-desc" then
    (b.priceRange.length : Int) - (a.priceRange.length : Int)
  else 0

/-- `Array.prototype.sort` with comparator `c`: stable, places `a` before `b`
whenever `c a b ≤ 0`. -/
def jsSortBy (c : Restaurant → Restaurant → Int) (l : List Restaurant) :
    List Restaurant :=
  l.mergeSort (fun a b => decide (c a b ≤ 0))

/-- App.tsx:92-117, the `filteredAndSortedRestaurants` memo: filter then sort. -/
def filteredAndSortedRestaurants (restaurants : List Restaurant)
    (searchTerm selectedCuisine priceFilter sortBy : String) : List Restaurant :=
  jsSortBy (sortComparator sortBy)
    (restaurants.filter (restaurantFilter searchTerm selectedCuisine priceFilter))

/-- Outcome of one GET against an endpoint: success carries the parsed JSON
array body; any non-ok status, transport error or malformed body is failure
(App.tsx:32-34). -/
inductive FetchResult where
  | success (data : List Restaurant)
  | failure
deriving DecidableEq, Repr

/-- Outcome of the POST of App.tsx:74-82: ok response, non-ok status, or
transport error. The latter two are caught by the same handler. -/
inductive PostResult where
  | ok
  | httpError
  | networkError
deriving DecidableEq, Repr

/-- The state slots of `App` touched by the core, plus the localStorage slot
under the fixed key "restaurants". `storage = none` models an absent key
(`getItem` returns null, which is falsy); `storage = some l` models the key
holding the serialization of `l`. -/
structure AppState where
  restaurants : List Restaurant
  error : Option String
  isLoading : Bool
  storage : Option (List Restaurant)
deriving DecidableEq, Repr

/-- `setRestaurants data` together with the persist effect of App.tsx:120-122,
which rewrites the localStorage key with the new collection whenever the
collection changes. -/
def setRestaurantsPersist (data : List Restaurant) (s : AppState) : AppState :=
  { s with restaurants := data, storage := some data }

/-- App.tsx:27-64, `fetchRestaurants`: try the primary endpoint, then the
hardcoded localhost fallback, then the localStorage cache; the outer catch
sets the retrieval error message, cleared again if the cache is adopted;
`finally` clears the loading flag. -/
def fetchRestaurants (primary fallback : FetchResult) (s : AppState) : AppState :=
  let s := { s with isLoading := true }
  let s :=
    match primary with
    | FetchResult.success data => { setRestaurantsPersist data s with error := none }
    | FetchResult.failure =>
      match fallback with
      | FetchResult.success data => { setRestaurantsPersist data s with error := none }
      | FetchResult.failure =>
        let s := { s with
          error := some "Failed to load restaurants. Please try again later." }
        match s.storage with
        | some savedData => { setRestaurantsPersist savedData s with error := none }
        | none => s
  { s with isLoading := false }

/-- A draft restaurant as produced by the form: `Omit<Restaurant, id | timestamp>`
(App.tsx:66). -/
structure RestaurantDraft where
  name : String
  cuisine : String
  description : String
  priceRange : String
  rating : Nat
  recommendedBy : String
  location : Location
deriving DecidableEq, Repr

/-- App.tsx:68-72: merge the generated id and current timestamp into the
draft to form the complete record sent to the server. -/
def completeDraft (d : RestaurantDraft) (id : String) (now : Int) : Restaurant :=
  { id := id, name := d.name, cuisine := d.cuisine, description := d.description,
    priceRange := d.priceRange, rating := d.rating,
    recommendedBy := d.recommendedBy, timestamp := now, location := d.location }

/-- App.tsx:66-90, `handleAddRestaurant`: build the record, POST it; on an ok
response refresh the collection and then clear the error slot; on a non-ok
status or transport error set the submission error message and change nothing
else. `id` models `crypto.randomUUID()` and `now` models `Date.now()`; the
posted body does not influence the resulting client state, which is why
`restaurantData` is unused below. -/
def handleAddRestaurant (newRestaurant : RestaurantDraft) (id : String)
    (now : Int) (post : PostResult) (primary fallback : FetchResult)
    (s : AppState) : AppState :=
  let _restaurantData := completeDraft newRestaurant id now
  match post with
  | PostResult.ok =>
    let s := fetchRestaurants primary fallback s
    { s with error := none }
  | PostResult.httpError =>
    { s with error := some "Failed to add restaurant. Please try again." }
  | PostResult.networkError =>
    { s with error := some "Failed to add restaurant. Please try again." }

/-- App mount (App.tsx:13-25 and 120-122): the state initialisers run, then
the mount effects fire in declaration order. The fetch effect calls
`fetchRestaurants`, which runs synchronously only up to its first await
(setting the loading flag) before suspending on the network; then the persist
effect runs, writing the current collection — still the initial empty array —
over whatever the localStorage key held from an earlier session. The
suspended fetch resolves only later, as the first refresh event of the
session. -/
def appMount (prevStorage : Option (List Restaurant)) : AppState :=
  let s : AppState :=
    { restaurants := [], error := none, isLoading := true, storage := prevStorage }
  let s := { s with isLoading := true }
  { s with storage := some s.restaurants }

/-- One user-visible asynchronous completion during a session: a refresh
(initial or submission-triggered fetch resolving) or a full submission. -/
inductive SessionEvent where
  | refreshEvent (primary fallback : FetchResult)
  | addEvent (newRestaurant : RestaurantDraft) (id : String) (now : Int)
      (post : PostResult) (primary fallback : FetchResult)
deriving DecidableEq, Repr

/-- Apply one session event to the state. -/
def sessionStep (s : AppState) : SessionEvent → AppState
  | SessionEvent.refreshEvent p f => fetchRestaurants p f s
  | SessionEvent.addEvent d i t post p f => handleAddRestaurant d i t post p f s

/-- A whole session: mount over the storage left by an earlier session, then
any sequence of events. -/
def runSession (prevStorage : Option (List Restaurant))
    (events : List SessionEvent) : AppState :=
  events.foldl sessionStep (appMount prevStorage)

/-- A concrete restaurant used to instantiate hypotheses in witness theorems
and in the search-predicate example. -/
def tofuHouse : Restaurant :=
  { id := "r1", name := "Tofu House", cuisine := "Other",
    description := "Soft tofu stew and vegan sides", priceRange := "€",
    rating := 5, recommendedBy := "Ana", timestamp := 3,
    location := { lat := 0, lng := 0, address := "Main St 1" } }

/-- A concrete draft used to instantiate witness theorems about submission. -/
def sampleDraft : RestaurantDraft :=
  { name := "Green Bowl", cuisine := "Thai", description := "Curries",
    priceRange := "€€", rating := 4, recommendedBy := "Bo",
    location := { lat := 1, lng := 2, address := "Side St 9" } }

/-- Claim C1: when the primary fetch fails, the fallback fetch fails and no
cached collection is present under the fixed key, a refresh leaves the
in-memory collection unchanged and sets the error slot to exactly the
retrieval failure message. -/
theorem fetch_allFail_noCache_preserves_and_sets_error (s : AppState)
    (h : s.storage = none) :
    (fetchRestaurants FetchResult.failure FetchResult.failure s).restaurants =
        s.restaurants ∧
    (fetchRestaurants FetchResult.failure FetchResult.failure s).error =
      some "Failed to load restaurants. Please try again later." := by
  simp [fetchRestaurants, h]

/-- Witness for C1 at a concrete state with a nonempty collection and an
absent cache key. -/
theorem fetch_allFail_noCache_witness :
    (fetchRestaurants FetchResult.failure FetchResult.failure
        ⟨[tofuHouse], none, false, none⟩).restaurants = [tofuHouse] ∧
    (fetchRestaurants FetchResult.failure FetchResult.failure
        ⟨[tofuHouse], none, false, none⟩).error =
      some "Failed to load restaurants. Please try again later." :=
  fetch_allFail_noCache_preserves_and_sets_error ⟨[tofuHouse], none, false, none⟩ rfl

/-- Claim C2: when both network fetches fail but a cached collection is
present under the fixed key, a refresh adopts the cached payload and ends
with the error slot cleared. -/
theorem fetch_allFail_cache_adopts_and_clears_error (s : AppState)
    (cached : List Restaurant) (h : s.storage = some cached) :
    (fetchRestaurants FetchResult.failure FetchResult.failure s).restaurants =
        cached ∧
    (fetchRestaurants FetchResult.failure FetchResult.failure s).error = none := by
  simp [fetchRestaurants, setRestaurantsPersist, h]

/-- Witness for C2 at a concrete state whose cache holds one restaurant. -/
theorem fetch_allFail_cache_witness :
    (fetchRestaurants FetchResult.failure FetchResult.failure
        ⟨[], none, false, some [tofuHouse]⟩).restaurants = [tofuHouse] ∧
    (fetchRestaurants FetchResult.failure FetchResult.failure
        ⟨[], none, false, some [tofuHouse]⟩).error = none :=
  fetch_allFail_cache_adopts_and_clears_error ⟨[], none, false, some [tofuHouse]⟩
    [tofuHouse] rfl

/-- Claim C3: when the primary fetch fails and the localhost fallback
succeeds with payload `data`, a refresh adopts that payload, clears the
error, and the entire resulting state is independent of the prior state —
in particular the cache is never consulted. -/
theorem fetch_fallback_success_adopts_payload (data : List Restaurant)
    (s : AppState) :
    fetchRestaurants FetchResult.failure (FetchResult.success data) s =
      { restaurants := data, error := none, isLoading := false,
        storage := some data } := rfl

/-- The pipeline with the cuisine and price predicates removed: filter on the
search predicate only, then sort. Stated only for comparison with the full
pipeline at the sentinel filter values. -/
def filteredAndSortedSearchOnly (restaurants : List Restaurant)
    (searchTerm sortBy : String) : List Restaurant :=
  jsSortBy (sortComparator sortBy)
    (restaurants.filter (fun r => matchesSearch searchTerm r))

/-- Claim C7: with `selectedCuisine = "All"` and `priceFilter = "all"` the
cuisine and price predicates exclude nothing: the pipeline coincides with the
pipeline that has those two predicates removed. -/
theorem sentinel_filters_are_identity (restaurants : List Restaurant)
    (searchTerm sortBy : String) :
    filteredAndSortedRestaurants restaurants searchTerm "All" "all" sortBy =
      filteredAndSortedSearchOnly restaurants searchTerm sortBy := by
  unfold filteredAndSortedRestaurants filteredAndSortedSearchOnly
  congr 1
  apply List.filter_congr
  intro r _
  simp [restaurantFilter, matchesCuisine, matchesPrice]

/-- Claim C8: when the POST fails (non-ok status or transport error) the
submission handler sets the submission error message and leaves the
in-memory collection unchanged. -/
theorem add_failure_sets_error_preserves_collection (d : RestaurantDraft)
    (id : String) (now : Int) (post : PostResult)
    (primary fallback : FetchResult) (s : AppState)
    (h : post ≠ PostResult.ok) :
    (handleAddRestaurant d id now post primary fallback s).error =
        some "Failed to add restaurant. Please try again." ∧
    (handleAddRestaurant d id now post primary fallback s).restaurants =
      s.restaurants := by
  cases post with
  | ok => exact absurd rfl h
  | httpError => exact ⟨rfl, rfl⟩
  | networkError => exact ⟨rfl, rfl⟩

/-- Witness for C8 at a concrete failing submission. -/
theorem add_failure_witness :
    (handleAddRestaurant sampleDraft "id-1" 7 PostResult.networkError
        FetchResult.failure FetchResult.failure
        ⟨[tofuHouse], none, false, none⟩).error =
      some "Failed to add restaurant. Please try again." ∧
    (handleAddRestaurant sampleDraft "id-1" 7 PostResult.networkError
        FetchResult.failure FetchResult.failure
        ⟨[tofuHouse], none, false, none⟩).restaurants = [tofuHouse] :=
  add_failure_sets_error_preserves_collection sampleDraft "id-1" 7
    PostResult.networkError FetchResult.failure FetchResult.failure
    ⟨[tofuHouse], none, false, none⟩ (by decide)

/-- Claim C9: the mount sequence writes the initial empty collection to the
fixed localStorage key before the first fetch can resolve, so the key no
longer holds any snapshot from an earlier session; consequently an entire
session is independent of whatever the earlier session had cached. -/
theorem mount_overwrites_cache_session_independent :
    (∀ prevStorage : Option (List Restaurant),
        (appMount prevStorage).storage = some []) ∧
    (∀ (prevStorage prevStorage' : Option (List Restaurant))
        (events : List SessionEvent),
        runSession prevStorage events = runSession prevStorage' events) :=
  ⟨fun _ => rfl, fun _ _ _ => rfl⟩

/-- Claim C10: after a submission whose POST succeeded, the error slot is
null no matter how the triggered refresh went; and with both fetches failing
and no cache that refresh alone would have left the retrieval failure
message, so a retrieval error never survives a successful submission. -/
theorem add_success_clears_error_unconditionally (d : RestaurantDraft)
    (id : String) (now : Int) (primary fallback : FetchResult) (s : AppState) :
    (handleAddRestaurant d id now PostResult.ok primary fallback s).error =
        none ∧
    (fetchRestaurants FetchResult.failure FetchResult.failure
        { s with storage := none }).error =
      some "Failed to load restaurants. Please try again later." :=
  ⟨rfl, rfl⟩

/-- The pipeline output is a permutation of the filtered subset, for any sort
key: the sort pass reorders but never adds or drops elements. -/
theorem filteredAndSorted_perm (restaurants : List Restaurant)
    (searchTerm selectedCuisine priceFilter sortBy : String) :
    (filteredAndSortedRestaurants restaurants searchTerm selectedCuisine
        priceFilter sortBy).Perm
      (restaurants.filter
        (restaurantFilter searchTerm selectedCuisine priceFilter)) :=
  List.mergeSort_perm _ _

/-- For a comparator that is transitive and total on nonpositive values, the
sort pass produces a list pairwise nonpositive under the comparator. -/
theorem jsSortBy_pairwise (c : Restaurant → Restaurant → Int)
    (htrans : ∀ a b d, c a b ≤ 0 → c b d ≤ 0 → c a d ≤ 0)
    (htotal : ∀ a b, c a b ≤ 0 ∨ c b a ≤ 0) (l : List Restaurant) :
    (jsSortBy c l).Pairwise (fun a b => c a b ≤ 0) := by
  have h := @List.sorted_mergeSort Restaurant (fun a b => decide (c a b ≤ 0))
    (fun a b d hab hbd => by
      simp only [decide_eq_true_eq] at *
      exact htrans a b d hab hbd)
    (fun a b => by
      rcases htotal a b with h | h <;> simp [h])
    l
  exact h.imp (fun hab => of_decide_eq_true hab)

/-- The comparator at key "newest" (App.tsx:103-104). -/
theorem sortComparator_newest (a b : Restaurant) :
    sortComparator "newest" a b = b.timestamp - a.timestamp := rfl

/-- The comparator at key "oldest" (App.tsx:105-106). -/
theorem sortComparator_oldest (a b : Restaurant) :
    sortComparator "oldest" a b = a.timestamp - b.timestamp := rfl

/-- The comparator at key "price-asc" (App.tsx:109-110). -/
theorem sortComparator_priceAsc (a b : Restaurant) :
    sortComparator "price-asc" a b =
      (a.priceRange.length : Int) - (b.priceRange.length : Int) := rfl

/-- The comparator at key "price-desc" (App.tsx:111-112). -/
theorem sortComparator_priceDesc (a b : Restaurant) :
    sortComparator "price-desc" a b =
      (b.priceRange.length : Int) - (a.priceRange.length : Int) := rfl

/-- Claim C4: for every collection and every choice of the three filters, the
pipeline at key "newest" is a permutation of the filtered subset with
non-increasing timestamps, and at key "oldest" a permutation with
non-decreasing timestamps. -/
theorem pipeline_newest_oldest_sorted (restaurants : List Restaurant)
    (searchTerm selectedCuisine priceFilter : String) :
    ((filteredAndSortedRestaurants restaurants searchTerm selectedCuisine
          priceFilter "newest").Perm
        (restaurants.filter
          (restaurantFilter searchTerm selectedCuisine priceFilter)) ∧
      (filteredAndSortedRestaurants restaurants searchTerm selectedCuisine
          priceFilter "newest").Pairwise
        (fun a b => b.timestamp ≤ a.timestamp)) ∧
    ((filteredAndSortedRestaurants restaurants searchTerm selectedCuisine
          priceFilter "oldest").Perm
        (restaurants.filter
          (restaurantFilter searchTerm selectedCuisine priceFilter)) ∧
      (filteredAndSortedRestaurants restaurants searchTerm selectedCuisine
          priceFilter "oldest").Pairwise
        (fun a b => a.timestamp ≤ b.timestamp)) := by
  refine ⟨⟨filteredAndSorted_perm _ _ _ _ _, ?_⟩,
    filteredAndSorted_perm _ _ _ _ _, ?_⟩
  · have h := jsSortBy_pairwise (sortComparator "newest")
      (fun a b d hab hbd => by
        simp only [sortComparator_newest] at *
        omega)
      (fun a b => by
        simp only [sortComparator_newest]
        omega)
      (restaurants.filter (restaurantFilter searchTerm selectedCuisine priceFilter))
    exact h.imp (fun hab => by
      simp only [sortComparator_newest] at hab
      omega)
  · have h := jsSortBy_pairwise (sortComparator "oldest")
      (fun a b d hab hbd => by
        simp only [sortComparator_oldest] at *
        omega)
      (fun a b => by
        simp only [sortComparator_oldest]
        omega)
      (restaurants.filter (restaurantFilter searchTerm selectedCuisine priceFilter))
    exact h.imp (fun hab => by
      simp only [sortComparator_oldest] at hab
      omega)

/-- Modelled from the spec: the ordinal tier table for the four price-range
symbols, tier order 1 < 2 < 3 < 4; any other string gets tier 0. The code
side derives the tier from the symbol-string length instead
(App.tsx:109-112); the claim relates the two. -/
def specPriceTier : String → Nat
  | "€" => 1
  | "€€" => 2
  | "€€€" => 3
  | "€€€€" => 4
  | _ => 0

/-- On the four admissible price-range symbols the spec tier coincides with
the symbol-string length, the encoding the code sorts by. -/
theorem specPriceTier_eq_length :
    ∀ s ∈ (["€", "€€", "€€€", "€€€€"] : List String),
      specPriceTier s = s.length := by decide

/-- Claim C5: for every collection whose price ranges are among the four tier
symbols, the pipeline at key "price-asc" is non-decreasing in the tier order,
and at key "price-desc" non-increasing, the tier of a symbol being its
string length. -/
theorem pipeline_price_tier_sorted (restaurants : List Restaurant)
    (searchTerm selectedCuisine priceFilter : String)
    (h : ∀ r ∈ restaurants,
      r.priceRange ∈ (["€", "€€", "€€€", "€€€€"] : List String)) :
    (filteredAndSortedRestaurants restaurants searchTerm selectedCuisine
        priceFilter "price-asc").Pairwise
      (fun a b => specPriceTier a.priceRange ≤ specPriceTier b.priceRange) ∧
    (filteredAndSortedRestaurants restaurants searchTerm selectedCuisine
        priceFilter "price-desc").Pairwise
      (fun a b => specPriceTier b.priceRange ≤ specPriceTier a.priceRange) := by
  have hmem : ∀ (so : String) (x : Restaurant),
      x ∈ filteredAndSortedRestaurants restaurants searchTerm selectedCuisine
        priceFilter so → x ∈ restaurants := by
    intro so x hx
    have hx2 := (filteredAndSorted_perm restaurants searchTerm selectedCuisine
      priceFilter so).mem_iff.mp hx
    exact (List.mem_filter.mp hx2).1
  constructor
  · have hp := jsSortBy_pairwise (sortComparator "price-asc")
      (fun a b d hab hbd => by
        simp only [sortComparator_priceAsc] at *
        omega)
      (fun a b => by
        simp only [sortComparator_priceAsc]
        omega)
      (restaurants.filter (restaurantFilter searchTerm selectedCuisine priceFilter))
    refine List.Pairwise.imp_of_mem ?_ hp
    intro a b ha hb hab
    rw [specPriceTier_eq_length _ (h a (hmem "price-asc" a ha)),
      specPriceTier_eq_length _ (h b (hmem "price-asc" b hb))]
    simp only [sortComparator_priceAsc] at hab
    omega
  · have hp := jsSortBy_pairwise (sortComparator "price-desc")
      (fun a b d hab hbd => by
        simp only [sortComparator_priceDesc] at *
        omega)
      (fun a b => by
        simp only [sortComparator_priceDesc]
        omega)
      (restaurants.filter (restaurantFilter searchTerm selectedCuisine priceFilter))
    refine List.Pairwise.imp_of_mem ?_ hp
    intro a b ha hb hab
    rw [specPriceTier_eq_length _ (h b (hmem "price-desc" b hb)),
      specPriceTier_eq_length _ (h a (hmem "price-desc" a ha))]
    simp only [sortComparator_priceDesc] at hab
    omega

/-- Witness for C5 at a concrete one-element collection with price range €. -/
theorem pipeline_price_tier_sorted_witness :
    (∀ r ∈ [tofuHouse],
      r.priceRange ∈ (["€", "€€", "€€€", "€€€€"] : List String)) ∧
    ((filteredAndSortedRestaurants [tofuHouse] "" "All" "all"
          "price-asc").Pairwise
        (fun a b => specPriceTier a.priceRange ≤ specPriceTier b.priceRange) ∧
      (filteredAndSortedRestaurants [tofuHouse] "" "All" "all"
          "price-desc").Pairwise
        (fun a b => specPriceTier b.priceRange ≤ specPriceTier a.priceRange)) :=
  ⟨by decide, pipeline_price_tier_sorted [tofuHouse] "" "All" "all" (by decide)⟩

/-- Claim C6: the search predicate holds exactly when the lowercased term is
a substring of the lowercased name or of the lowercased description; the
empty term matches every restaurant, and the restaurant named Tofu House
matches the term tofu. -/
theorem search_predicate_characterisation :
    (∀ (r : Restaurant) (term : String),
        matchesSearch term r = true ↔
          ((jsToLower term).toList <:+: (jsToLower r.name).toList ∨
            (jsToLower term).toList <:+: (jsToLower r.description).toList)) ∧
    (∀ r : Restaurant, matchesSearch "" r = true) ∧
    matchesSearch "tofu" tofuHouse = true := by
  refine ⟨?_, ?_, by decide⟩
  · intro r term
    simp [matchesSearch, jsIncludes]
  · intro r
    have hnil : (jsToLower "").toList = ([] : List Char) := rfl
    simp only [matchesSearch, jsIncludes, Bool.or_eq_true, decide_eq_true_eq,
      hnil]
    exact Or.inl List.nil_infix
